import Mathlib

/-!
Verification of the stepping-switch wiring tables of the PURPLE cipher
machine simulator (`purple/wiring.py`).  The four literal tables are
transcribed verbatim from the source; the query, inverse-query and
construction-time validation operations are modelled from the
specification, since the source unit contains only the literal data.
-/

namespace Purple

def SIXES : List (List Nat) := [
    [1, 0, 2, 4, 3, 5],
    [5, 2, 4, 1, 0, 3],
    [0, 4, 3, 5, 1, 2],
    [3, 2, 1, 0, 5, 4],
    [2, 5, 0, 3, 4, 1],
    [1, 0, 5, 4, 2, 3],
    [5, 4, 3, 1, 0, 2],
    [2, 5, 0, 3, 4, 1],
    [4, 3, 1, 5, 2, 0],
    [3, 4, 2, 1, 0, 5],
    [1, 0, 3, 4, 5, 2],
    [4, 3, 5, 2, 1, 0],
    [2, 0, 1, 5, 3, 4],
    [3, 1, 4, 0, 2, 5],
    [0, 5, 1, 2, 4, 3],
    [4, 3, 2, 5, 0, 1],
    [5, 1, 4, 2, 3, 0],
    [1, 2, 3, 0, 4, 5],
    [0, 1, 2, 4, 5, 3],
    [2, 0, 5, 3, 1, 4],
    [5, 4, 0, 1, 3, 2],
    [0, 2, 5, 3, 1, 4],
    [5, 3, 4, 0, 2, 1],
    [3, 5, 0, 1, 4, 2],
    [4, 1, 3, 2, 5, 0]
]

def TWENTIES_I : List (List Nat) := [
    [5, 18, 13, 0, 9, 3, 1, 6, 12, 8, 7, 15, 2, 17, 14, 10, 4, 11, 19, 16],
    [3, 4, 15, 16, 13, 0, 19, 14, 2, 7, 17, 10, 11, 12, 9, 18, 1, 5, 8, 6],
    [16, 0, 12, 5, 14, 10, 18, 11, 15, 17, 9, 2, 6, 13, 7, 19, 3, 8, 1, 4],
    [2, 13, 19, 3, 5, 15, 7, 18, 1, 11, 16, 8, 4, 0, 10, 9, 6, 12, 14, 17],
    [18, 5, 7, 19, 12, 4, 17, 3, 9, 2, 15, 14, 13, 11, 6, 1, 16, 10, 0, 8],
    [1, 10, 8, 13, 6, 18, 5, 2, 17, 12, 11, 7, 9, 14, 15, 16, 19, 3, 4, 0],
    [15, 6, 5, 17, 8, 9, 12, 0, 16, 1, 4, 3, 10, 18, 19, 13, 7, 14, 2, 11],
    [0, 19, 6, 15, 11, 13, 4, 17, 14, 9, 12, 5, 7, 2, 3, 8, 10, 16, 18, 1],
    [16, 8, 10, 7, 19, 17, 6, 13, 0, 15, 14, 4, 18, 1, 5, 11, 3, 9, 12, 2],
    [11, 7, 16, 8, 2, 19, 3, 9, 13, 4, 6, 17, 1, 15, 12, 5, 0, 18, 14, 10],
    [19, 0, 15, 10, 1, 16, 8, 3, 7, 14, 9, 12, 2, 17, 13, 4, 5, 6, 11, 18],
    [4, 3, 14, 1, 12, 18, 5, 15, 11, 13, 7, 6, 16, 9, 17, 2, 8, 0, 10, 19],
    [14, 16, 9, 18, 15, 1, 10, 7, 8, 6, 2, 13, 17, 12, 11, 0, 4, 19, 5, 3],
    [10, 11, 6, 2, 7, 14, 15, 5, 3, 19, 1, 4, 0, 8, 18, 17, 9, 13, 16, 12],
    [11, 15, 1, 6, 3, 7, 14, 18, 4, 0, 10, 8, 19, 16, 5, 13, 12, 2, 17, 9],
    [7, 14, 17, 0, 11, 10, 16, 13, 19, 15, 12, 18, 8, 6, 2, 3, 1, 4, 9, 5],
    [6, 2, 4, 17, 16, 12, 18, 19, 13, 10, 8, 9, 1, 5, 0, 14, 11, 15, 3, 7],
    [9, 12, 3, 13, 17, 2, 1, 16, 10, 18, 19, 0, 5, 11, 8, 6, 14, 7, 4, 15],
    [12, 6, 8, 11, 19, 15, 13, 9, 18, 5, 0, 1, 10, 3, 4, 2, 17, 16, 7, 14],
    [0, 1, 2, 3, 4, 5, 6, 7, 8, 9, 10, 11, 12, 13, 14, 15, 16, 17, 18, 19],
    [8, 19, 11, 4, 9, 16, 0, 12, 6, 14, 3, 2, 15, 7, 17, 10, 18, 1, 13, 5],
    [17, 14, 1, 12, 0, 6, 9, 4, 18, 16, 5, 19, 8, 10, 11, 7, 2, 3, 15, 13],
    [15, 17, 18, 9, 10, 19, 4, 8, 0, 3, 11, 12, 6, 5, 16, 1, 13, 14, 2, 7],
    [4, 7, 0, 14, 18, 8, 11, 1, 5, 2, 13, 16, 3, 19, 15, 12, 17, 9, 6, 10],
    [13, 9, 3, 7, 8, 11, 2, 10, 16, 19, 18, 5, 14, 4, 1, 17, 15, 6, 0, 12]
]

def TWENTIES_II : List (List Nat) := [
    [14, 8, 0, 4, 16, 18, 2, 1, 9, 7, 10, 17, 11, 15, 5, 12, 19, 3, 13, 6],
    [11, 5, 14, 1, 3, 8, 7, 15, 18, 16, 4, 10, 19, 6, 9, 17, 0, 13, 12, 2],
    [3, 17, 4, 7, 15, 0, 11, 14, 19, 13, 12, 16, 10, 1, 6, 8, 5, 2, 9, 18],
    [5, 10, 1, 19, 13, 6, 17, 11, 14, 2, 7, 4, 9, 0, 16, 18, 8, 15, 3, 12],
    [6, 1, 12, 2, 8, 3, 16, 13, 0, 11, 17, 19, 5, 10, 15, 14, 4, 7, 18, 9],
    [4, 16, 13, 6, 9, 8, 18, 19, 7, 12, 0, 1, 15, 2, 3, 11, 10, 17, 5, 14],
    [7, 3, 2, 10, 18, 12, 1, 8, 11, 15, 9, 16, 13, 14, 19, 5, 17, 0, 6, 4],
    [19, 0, 15, 9, 14, 7, 13, 10, 17, 4, 2, 6, 12, 16, 18, 3, 1, 8, 11, 5],
    [8, 7, 6, 14, 4, 1, 3, 12, 16, 0, 10, 5, 18, 17, 13, 9, 2, 19, 15, 11],
    [9, 11, 10, 17, 7, 15, 19, 16, 4, 5, 8, 2, 3, 18, 12, 6, 0, 13, 14, 1],
    [10, 6, 13, 3, 17, 19, 5, 0, 12, 18, 11, 14, 4, 8, 15, 1, 16, 9, 7, 2],
    [1, 2, 8, 9, 12, 13, 14, 15, 6, 10, 19, 11, 17, 5, 0, 4, 7, 16, 18, 3],
    [15, 9, 14, 0, 16, 2, 12, 8, 3, 6, 5, 7, 1, 13, 4, 10, 11, 18, 17, 19],
    [18, 15, 17, 11, 2, 12, 8, 9, 5, 1, 16, 13, 10, 3, 6, 19, 14, 4, 0, 7],
    [17, 13, 11, 18, 0, 6, 9, 5, 10, 14, 4, 8, 7, 19, 16, 3, 2, 12, 1, 15],
    [19, 2, 18, 1, 3, 4, 10, 13, 8, 9, 17, 15, 14, 11, 7, 6, 12, 5, 16, 0],
    [2, 5, 3, 13, 1, 11, 15, 4, 17, 19, 6, 18, 0, 14, 8, 7, 9, 10, 12, 16],
    [4, 14, 19, 8, 9, 16, 0, 18, 12, 11, 3, 1, 6, 5, 10, 13, 15, 7, 2, 17],
    [13, 19, 12, 16, 4, 17, 7, 3, 1, 14, 15, 0, 8, 18, 2, 5, 6, 9, 11, 10],
    [7, 10, 0, 5, 18, 13, 4, 17, 16, 2, 9, 12, 11, 19, 14, 15, 3, 1, 6, 8],
    [16, 18, 5, 0, 11, 14, 19, 6, 15, 8, 2, 10, 12, 9, 1, 17, 7, 3, 4, 13],
    [0, 4, 11, 19, 5, 10, 13, 7, 8, 6, 18, 3, 2, 12, 9, 16, 17, 15, 14, 1],
    [15, 7, 9, 12, 10, 5, 18, 4, 2, 3, 14, 19, 16, 1, 17, 0, 13, 6, 8, 11],
    [18, 12, 7, 15, 19, 9, 6, 0, 1, 17, 13, 5, 8, 4, 11, 2, 16, 14, 10, 3],
    [12, 0, 16, 14, 6, 3, 15, 2, 13, 4, 1, 9, 17, 7, 10, 8, 18, 11, 19, 5]
]

def TWENTIES_III : List (List Nat) := [
    [6, 18, 10, 2, 19, 0, 9, 5, 15, 11, 16, 12, 7, 8, 3, 17, 4, 13, 14, 1],
    [14, 16, 13, 1, 11, 12, 7, 2, 0, 18, 8, 3, 9, 6, 10, 19, 15, 5, 17, 4],
    [1, 10, 19, 11, 0, 18, 3, 9, 8, 13, 5, 14, 12, 2, 6, 15, 17, 7, 4, 16],
    [15, 2, 11, 8, 3, 19, 5, 18, 17, 1, 4, 7, 13, 10, 9, 0, 14, 16, 12, 6],
    [11, 17, 15, 3, 8, 2, 14, 12, 5, 19, 7, 1, 6, 9, 4, 18, 13, 0, 16, 10],
    [12, 8, 4, 5, 7, 6, 11, 16, 13, 17, 19, 9, 1, 18, 10, 14, 3, 2, 0, 15],
    [3, 6, 1, 14, 16, 9, 18, 4, 7, 15, 0, 11, 2, 12, 5, 13, 19, 8, 10, 17],
    [8, 5, 3, 9, 17, 15, 7, 13, 4, 11, 16, 0, 19, 14, 12, 18, 1, 10, 6, 2],
    [4, 13, 17, 16, 12, 14, 10, 11, 6, 7, 2, 5, 0, 1, 19, 3, 8, 9, 15, 18],
    [10, 15, 8, 17, 2, 11, 4, 14, 9, 0, 13, 16, 1, 3, 18, 5, 7, 6, 12, 19],
    [18, 7, 2, 14, 13, 4, 0, 10, 1, 9, 11, 15, 17, 19, 16, 6, 12, 3, 8, 5],
    [0, 11, 16, 12, 8, 6, 13, 1, 14, 3, 4, 10, 5, 15, 2, 7, 17, 18, 19, 9],
    [2, 3, 9, 11, 0, 17, 1, 7, 13, 12, 18, 6, 15, 5, 14, 8, 16, 19, 4, 10],
    [8, 10, 5, 4, 9, 3, 16, 18, 12, 14, 6, 1, 11, 17, 13, 19, 0, 15, 7, 2],
    [7, 12, 13, 15, 18, 11, 19, 6, 9, 2, 14, 8, 3, 16, 0, 10, 4, 1, 5, 17],
    [17, 15, 14, 3, 1, 16, 12, 11, 5, 10, 19, 18, 13, 4, 8, 0, 7, 6, 2, 9],
    [13, 0, 6, 19, 5, 12, 15, 17, 11, 8, 3, 16, 4, 10, 1, 2, 9, 14, 18, 7],
    [16, 18, 0, 10, 6, 1, 17, 3, 2, 7, 9, 4, 14, 11, 15, 8, 5, 12, 19, 13],
    [9, 14, 1, 13, 10, 5, 6, 0, 15, 19, 12, 2, 8, 7, 17, 16, 18, 4, 11, 3],
    [19, 8, 7, 5, 11, 10, 1, 4, 3, 6, 15, 13, 16, 2, 14, 9, 12, 18, 17, 0],
    [10, 19, 12, 7, 15, 9, 17, 13, 18, 5, 14, 3, 0, 16, 6, 4, 2, 8, 1, 11],
    [15, 4, 9, 18, 3, 17, 14, 16, 0, 2, 1, 19, 10, 5, 7, 12, 6, 11, 13, 8],
    [5, 9, 18, 15, 4, 8, 0, 19, 16, 3, 10, 17, 6, 13, 12, 1, 11, 7, 2, 14],
    [7, 6, 4, 0, 14, 13, 8, 15, 10, 16, 17, 5, 18, 19, 2, 11, 3, 1, 9, 12],
    [12, 1, 16, 6, 13, 7, 2, 8, 19, 4, 15, 9, 5, 0, 11, 14, 10, 17, 3, 18]
]

/-- The four physical stepping switches of the PURPLE machine. -/
inductive SwitchKind
  | Sixes
  | TwentiesI
  | TwentiesII
  | TwentiesIII
deriving DecidableEq, Fintype

/-- Number of contacts of each switch kind: 6 for Sixes, 20 for the Twenties. -/
def contact_count : SwitchKind → Nat
  | .Sixes => 6
  | .TwentiesI => 20
  | .TwentiesII => 20
  | .TwentiesIII => 20

/-- The literal wiring grid of each switch kind, as given in the source. -/
def wiring : SwitchKind → List (List Nat)
  | .Sixes => SIXES
  | .TwentiesI => TWENTIES_I
  | .TwentiesII => TWENTIES_II
  | .TwentiesIII => TWENTIES_III

/-- Number of wiper positions, derived from the data (number of rows). -/
def position_count (k : SwitchKind) : Nat := (wiring k).length

/-- The row of the wiring grid of switch `k` at wiper position `p`. -/
def rowAt (k : SwitchKind) (p : Nat) : List Nat := (wiring k).getD p []

/-- Modelled from the spec: the error taxonomy of §7.  `OutOfRangeError`
signals a query with a position or contact index outside the valid domain;
`MalformedWiringError` signals a grid violating the shape or permutation
invariants at construction time.  Neither error type appears in the source
unit, which holds only the literal data. -/
inductive WiringError
  | OutOfRangeError
  | MalformedWiringError
deriving DecidableEq

/-- Modelled from the spec: the query operation
`map(position, input_contact) -> output_contact` of §4.1, absent from the
source unit.  Inputs are integers so that negative indices can be presented;
any out-of-bounds input fails with `OutOfRangeError`, otherwise the result is
the direct grid lookup. -/
def map (k : SwitchKind) (p c : Int) : Except WiringError Nat :=
  if 0 ≤ p ∧ p < position_count k ∧ 0 ≤ c ∧ c < contact_count k then
    Except.ok ((rowAt k p.toNat).getD c.toNat 0)
  else
    Except.error WiringError.OutOfRangeError

/-- Modelled from the spec: the inverse-lookup operation
`inverse_map(position, output_contact) -> input_contact` of §4.1, absent from
the source unit.  It inverts the row permutation on demand by scanning for
the output contact; out-of-bounds inputs fail with `OutOfRangeError`. -/
def inverse_map (k : SwitchKind) (p c : Int) : Except WiringError Nat :=
  if 0 ≤ p ∧ p < position_count k ∧ 0 ≤ c ∧ c < contact_count k then
    Except.ok ((rowAt k p.toNat).indexOf c.toNat)
  else
    Except.error WiringError.OutOfRangeError

/-- A row is a valid permutation row for contact count `n`: it has exactly
`n` entries and every value in `0..n-1` occurs exactly once. -/
def is_perm_row (n : Nat) (row : List Nat) : Bool :=
  (row.length == n) && (List.range n).all (fun v => row.count v == 1)

/-- A grid satisfies the shape and permutation invariants of §3: it is
nonempty and every row is a permutation row. -/
def valid_grid (n : Nat) (grid : List (List Nat)) : Bool :=
  !grid.isEmpty && grid.all (is_perm_row n)

/-- A validated, immutable wiring table (spec §4.1). -/
structure WiringTable where
  contacts : Nat
  rows : List (List Nat)
deriving DecidableEq

/-- Modelled from the spec: the construction contract of §4.1, absent from
the source unit.  Validation happens once, at construction; a grid violating
the invariants fails with `MalformedWiringError` and no table is produced. -/
def mkWiringTable (n : Nat) (grid : List (List Nat)) :
    Except WiringError WiringTable :=
  if valid_grid n grid then
    Except.ok ⟨n, grid⟩
  else
    Except.error WiringError.MalformedWiringError


deriving instance DecidableEq for Except

set_option maxRecDepth 10000

/-- Claim C1: for every switch kind and every wiper position `p`, the row at
position `p` is a permutation of `0..contact_count-1`: the multiset of grid
entries `map(p, c)` over all valid contacts `c` contains every value in that
range exactly once, with no duplicates and no omissions. -/
theorem perm_property : ∀ k : SwitchKind, ∀ p : Fin (position_count k),
    (rowAt k p).Perm (List.range (contact_count k)) ∧
    ((List.range (contact_count k)).map (fun c => (rowAt k p).getD c 0)).Perm
      (List.range (contact_count k)) := by decide

/-- Claim C2: every switch kind has exactly 25 wiper positions, and every
row's length equals the switch's contact count: 6 for Sixes, 20 for each of
the three Twenties tables. -/
theorem shape_property :
    (∀ k : SwitchKind, position_count k = 25) ∧
    contact_count SwitchKind.Sixes = 6 ∧
    contact_count SwitchKind.TwentiesI = 20 ∧
    contact_count SwitchKind.TwentiesII = 20 ∧
    contact_count SwitchKind.TwentiesIII = 20 ∧
    (∀ k : SwitchKind, ∀ p : Fin (position_count k),
      (rowAt k p).length = contact_count k) := by decide

/-- Claim C3: for every switch kind, valid position `p` and valid input
contact `c`, the query `map(p, c)` returns exactly the value stored at index
`c` of row `p` of that switch's wiring grid (direct lookup). -/
theorem map_is_direct_lookup (k : SwitchKind) (p c : Nat)
    (hp : p < position_count k) (hc : c < contact_count k) :
    map k p c = Except.ok ((rowAt k p).getD c 0) := by
  have h : (0 : Int) ≤ (p : Int) ∧ (p : Int) < position_count k ∧
      (0 : Int) ≤ (c : Int) ∧ (c : Int) < contact_count k :=
    ⟨Int.natCast_nonneg p, by exact_mod_cast hp,
     Int.natCast_nonneg c, by exact_mod_cast hc⟩
  rw [map, if_pos h]
  simp

/-- Witness for C3: the Sixes switch at position 0, contact 0, where the grid
entry is 1. -/
theorem map_is_direct_lookup_witness :
    map SwitchKind.Sixes 0 0 = Except.ok 1 :=
  (map_is_direct_lookup SwitchKind.Sixes 0 0 (by decide) (by decide)).trans
    (by decide)

/-- Claim C4: for every switch kind, valid position and valid contact, the
forward and inverse lookups are mutually inverse:
`inverse_map(p, map(p, c)) = c` and `map(p, inverse_map(p, c)) = c`. -/
theorem map_inverse_consistent : ∀ k : SwitchKind, ∀ p : Fin (position_count k),
    ∀ c : Fin (contact_count k),
    (map k p.val c.val).bind (fun y => inverse_map k p.val y) =
      Except.ok c.val ∧
    (inverse_map k p.val c.val).bind (fun y => map k p.val y) =
      Except.ok c.val := by decide

/-- Claim C5: `map` and `inverse_map` called with `position = position_count`
or `contact = contact_count` (one past the valid end), or with any negative
position or contact, fail with `OutOfRangeError` and never return a
silently-wrapped or truncated result. -/
theorem query_out_of_range (k : SwitchKind) (p c : Int)
    (h : p < 0 ∨ c < 0 ∨ (position_count k : Int) ≤ p ∨
      (contact_count k : Int) ≤ c) :
    map k p c = Except.error WiringError.OutOfRangeError ∧
    inverse_map k p c = Except.error WiringError.OutOfRangeError := by
  have hcond : ¬ (0 ≤ p ∧ p < position_count k ∧ 0 ≤ c ∧
      c < contact_count k) := by
    rcases h with h | h | h | h <;> rintro ⟨h1, h2, h3, h4⟩ <;> omega
  rw [map, if_neg hcond, inverse_map, if_neg hcond]
  exact ⟨rfl, rfl⟩

/-- Witness for C5: querying the Sixes switch at position 25 (one past the
valid end) fails with `OutOfRangeError` in both directions. -/
theorem query_out_of_range_witness :
    map SwitchKind.Sixes 25 0 = Except.error WiringError.OutOfRangeError ∧
    inverse_map SwitchKind.Sixes 25 0 =
      Except.error WiringError.OutOfRangeError :=
  query_out_of_range SwitchKind.Sixes 25 0 (by decide)

/-- Claim C6: constructing a wiring table from a grid that violates the shape
or permutation invariants fails with `MalformedWiringError` at construction
time and produces no table, and this error is never returned by the query
operations `map` and `inverse_map`. -/
theorem construction_rejection :
    (∀ (n : Nat) (grid : List (List Nat)), valid_grid n grid = false →
      mkWiringTable n grid = Except.error WiringError.MalformedWiringError) ∧
    (∀ (k : SwitchKind) (p c : Int),
      map k p c ≠ Except.error WiringError.MalformedWiringError ∧
      inverse_map k p c ≠ Except.error WiringError.MalformedWiringError) := by
  refine ⟨fun n grid h => ?_, fun k p c => ⟨?_, ?_⟩⟩
  · rw [mkWiringTable, if_neg (by simp [h])]
  · rw [map]; split <;> simp
  · rw [inverse_map]; split <;> simp

/-- Witness for C6: a grid whose single row duplicates the value 4 (and
omits 5) is rejected with `MalformedWiringError`. -/
theorem construction_rejection_witness :
    mkWiringTable 6 [[1, 0, 2, 4, 3, 4]] =
      Except.error WiringError.MalformedWiringError :=
  construction_rejection.1 6 [[1, 0, 2, 4, 3, 4]] (by decide)

/-- Claim C7: the Sixes switch at wiper position 0 has row
`[1, 0, 2, 4, 3, 5]`, and `map(0, 0) = 1`, `map(0, 1) = 0`, `map(0, 5) = 5`,
`inverse_map(0, 1) = 0`, `inverse_map(0, 5) = 5`. -/
theorem sixes_position0_scenario :
    rowAt SwitchKind.Sixes 0 = [1, 0, 2, 4, 3, 5] ∧
    map SwitchKind.Sixes 0 0 = Except.ok 1 ∧
    map SwitchKind.Sixes 0 1 = Except.ok 0 ∧
    map SwitchKind.Sixes 0 5 = Except.ok 5 ∧
    inverse_map SwitchKind.Sixes 0 1 = Except.ok 0 ∧
    inverse_map SwitchKind.Sixes 0 5 = Except.ok 5 := by decide

/-- Claim C8: the TwentiesI switch at wiper position 19 holds the identity
permutation of `0..19`: `map(19, c) = c` for every contact `c`. -/
theorem twentiesI_position19_identity :
    rowAt SwitchKind.TwentiesI 19 = List.range 20 ∧
    (∀ c : Fin 20, map SwitchKind.TwentiesI 19 c.val = Except.ok c.val) := by
  decide

/-- Claim C9: Sixes wiper positions 4 and 7 hold the identical row
`[2, 5, 0, 3, 4, 1]`, so `map(4, c) = map(7, c)` for every contact `c`, and
the rows of the Sixes table are not pairwise distinct. -/
theorem sixes_rows_4_7_equal :
    rowAt SwitchKind.Sixes 4 = [2, 5, 0, 3, 4, 1] ∧
    rowAt SwitchKind.Sixes 7 = rowAt SwitchKind.Sixes 4 ∧
    (∀ c : Fin 6,
      map SwitchKind.Sixes 4 c.val = map SwitchKind.Sixes 7 c.val) ∧
    ¬ SIXES.Nodup := by decide

/-- Claim C10: across all four wiring tables the identity permutation occurs
at exactly one place, TwentiesI position 19: a position maps every contact to
itself precisely when it is that position. -/
theorem identity_row_unique : ∀ k : SwitchKind, ∀ p : Fin (position_count k),
    (∀ c : Fin (contact_count k), map k p.val c.val = Except.ok c.val) ↔
      (k = SwitchKind.TwentiesI ∧ p.val = 19) := by decide

end Purple
